import Mathlib

/-!
Shallow embedding of `Arduino_Mobile_Phone.ino` (touch-phone keypad loop).

The program is a single polling loop: it reads one touch sample per
iteration, filters it by pressure, maps the raw coordinates to display
coordinates, and for each of the 15 on-screen buttons whose bounding square
strictly contains the mapped point it flashes the button and dispatches on
the button index (digits/#/* append to the dial buffer, `end` and `call`
drive the status banner and the modem, `dele` removes the last character).

Mutable program state is the pair of `uint16_t` globals `text_x` (cursor)
and `n` (dial-buffer count).  All hardware side effects (display drawing,
modem serial writes, delays) are modelled as an emitted trace of `Event`s.
`Set_Draw_color c` immediately followed by a fill call is modelled as the
fill event carrying the colour `c`; `mySerial.println(cmd)` is modelled as
`Event.modem cmd` (the line `cmd` followed by the serial line terminator);
`updateSerial()` is modelled as `Event.relay`.
-/

namespace Phone

/-! ## Constants from the source (`#define`s and display geometry) -/

-- Colors (16-bit RGB565 values from the source's #defines)
def BLACK : Nat := 0x0000
def BLUE : Nat := 0x001F
def RED : Nat := 0xF800
def GREEN : Nat := 0x07E0
def CYAN : Nat := 0x07FF
def MAGENTA : Nat := 0xF81F
def YELLOW : Nat := 0xFFE0
def WHITE : Nat := 0xFFFF
def NAVY : Nat := 0x000F
def DARKGREEN : Nat := 0x03E0
def DARKCYAN : Nat := 0x03EF
def MAROON : Nat := 0x7800
def PURPLE : Nat := 0x780F
def OLIVE : Nat := 0x7BE0
def LIGHTGREY : Nat := 0xC618
def DARKGREY : Nat := 0x7BEF
def ORANGE : Nat := 0xFD20
def GREENYELLOW : Nat := 0xAFE5
def PINK : Nat := 0xF81F

-- UI details
def BUTTON_R : Nat := 25
def BUTTON_SPACING_X : Nat := 25
def BUTTON_SPACING_Y : Nat := 5
def EDG_Y : Nat := 5
def EDG_X : Nat := 20

-- Touchscreen calibration
def TS_MINX : Int := 910
def TS_MAXX : Int := 180
def TS_MINY : Int := 760
def TS_MAXY : Int := 135

-- Touchscreen pressure thresholds
def MINPRESSURE : Int := 10
def MAXPRESSURE : Int := 1000

-- `LCDWIKI_KBV my_lcd(240, 320, ...)`: Get_Display_Width / Get_Display_Height
def displayWidth : Nat := 240
def displayHeight : Nat := 320

/-- Sentinel x-coordinate from the external LCDWIKI_GUI library meaning
"center the string horizontally"; its numeric value is internal to that
library and nothing here depends on it. -/
def CENTER : Int := -9999

/-! ## Data model -/

/-- `button_info` struct from the source (the `uint8_t button_name[10]`
C string is modelled as a `String`). -/
structure button_info where
  button_name : String
  button_name_size : Nat
  button_name_colour : Nat
  button_colour : Nat
  button_x : Nat
  button_y : Nat
deriving DecidableEq, Inhabited

/-- The `phone_button[15]` array, with the source's layout formulas
(all arithmetic is exact: no `uint16_t` wraparound occurs for these values). -/
def phone_button : List button_info := [
  ⟨"1", 3, BLACK, CYAN, EDG_X + BUTTON_R - 1, displayHeight - EDG_Y - 4 * BUTTON_SPACING_Y - 9 * BUTTON_R - 1⟩,
  ⟨"2", 3, BLACK, CYAN, EDG_X + 3 * BUTTON_R + BUTTON_SPACING_X - 1, displayHeight - EDG_Y - 4 * BUTTON_SPACING_Y - 9 * BUTTON_R - 1⟩,
  ⟨"3", 3, BLACK, CYAN, EDG_X + 5 * BUTTON_R + 2 * BUTTON_SPACING_X - 1, displayHeight - EDG_Y - 4 * BUTTON_SPACING_Y - 9 * BUTTON_R - 1⟩,
  ⟨"4", 3, BLACK, CYAN, EDG_X + BUTTON_R - 1, displayHeight - EDG_Y - 3 * BUTTON_SPACING_Y - 7 * BUTTON_R - 1⟩,
  ⟨"5", 3, BLACK, CYAN, EDG_X + 3 * BUTTON_R + BUTTON_SPACING_X - 1, displayHeight - EDG_Y - 3 * BUTTON_SPACING_Y - 7 * BUTTON_R - 1⟩,
  ⟨"6", 3, BLACK, CYAN, EDG_X + 5 * BUTTON_R + 2 * BUTTON_SPACING_X - 1, displayHeight - EDG_Y - 3 * BUTTON_SPACING_Y - 7 * BUTTON_R - 1⟩,
  ⟨"7", 3, BLACK, CYAN, EDG_X + BUTTON_R - 1, displayHeight - EDG_Y - 2 * BUTTON_SPACING_Y - 5 * BUTTON_R - 1⟩,
  ⟨"8", 3, BLACK, CYAN, EDG_X + 3 * BUTTON_R + BUTTON_SPACING_X - 1, displayHeight - EDG_Y - 2 * BUTTON_SPACING_Y - 5 * BUTTON_R - 1⟩,
  ⟨"9", 3, BLACK, CYAN, EDG_X + 5 * BUTTON_R + 2 * BUTTON_SPACING_X - 1, displayHeight - EDG_Y - 2 * BUTTON_SPACING_Y - 5 * BUTTON_R - 1⟩,
  ⟨"#", 3, BLACK, PINK, EDG_X + BUTTON_R - 1, displayHeight - EDG_Y - BUTTON_SPACING_Y - 3 * BUTTON_R - 1⟩,
  ⟨"0", 3, BLACK, CYAN, EDG_X + 3 * BUTTON_R + BUTTON_SPACING_X - 1, displayHeight - EDG_Y - BUTTON_SPACING_Y - 3 * BUTTON_R - 1⟩,
  ⟨"*", 3, BLACK, PINK, EDG_X + 5 * BUTTON_R + 2 * BUTTON_SPACING_X - 1, displayHeight - EDG_Y - BUTTON_SPACING_Y - 3 * BUTTON_R - 1⟩,
  ⟨"end", 2, BLACK, RED, EDG_X + BUTTON_R - 1, displayHeight - EDG_Y - BUTTON_R - 1⟩,
  ⟨"call", 2, BLACK, GREEN, EDG_X + 3 * BUTTON_R + BUTTON_SPACING_X - 1, displayHeight - EDG_Y - BUTTON_R - 1⟩,
  ⟨"dele", 2, BLACK, LIGHTGREY, EDG_X + 5 * BUTTON_R + 2 * BUTTON_SPACING_X - 1, displayHeight - EDG_Y - BUTTON_R - 1⟩]

/-- `phone_button[i]` (C array indexing; indices used by the loop are `< 15`). -/
def nthButton (i : Nat) : button_info := phone_button.getD i default

/-- A raw touch sample, `TSPoint` from the TouchScreen library
(`int16_t x, y, z`; modelled on `Int`, where all values arising fit). -/
structure TSPoint where
  x : Int
  y : Int
  z : Int
deriving DecidableEq

/-- The mutable globals of the program: `uint16_t text_x` (dial cursor) and
`uint16_t n` (dial-buffer count).  `text_y`, `text_x_add`, `text_y_add`
never change and are kept as constants below. -/
structure State where
  text_x : Nat
  n : Nat
deriving DecidableEq

def text_y : Nat := 6
def text_x_add : Nat := 6 * (phone_button.headD default).button_name_size
def text_y_add : Nat := 8 * (phone_button.headD default).button_name_size

/-- Initial values: `text_x = 10, n = 0`. -/
def initState : State := ⟨10, 0⟩

/-! ## Hardware-effect trace -/

/-- One observable side effect of a loop iteration. -/
inductive Event where
  /-- `ts.getPoint()` returned the sample `p`. -/
  | sample (p : TSPoint)
  /-- `Set_Draw_color c; Fill_Circle cx cy r`. -/
  | fillCircle (cx cy r : Int) (c : Nat)
  /-- `Set_Draw_color c; Fill_Rectangle x0 y0 x1 y1`. -/
  | fillRect (x0 y0 x1 y1 : Int) (c : Nat)
  /-- `show_string(str, x, y, csize, fc, bc, mode)`. -/
  | text (str : String) (x y : Int) (csize : Nat) (fc bc : Nat) (mode : Bool)
  /-- `mySerial.println(line)`: the command line followed by the terminator. -/
  | modem (line : String)
  /-- `updateSerial()`: bounded bidirectional byte relay. -/
  | relay
  /-- `delay(ms)`. -/
  | delayMs (ms : Nat)
deriving DecidableEq

/-! ## The functions of the source -/

-- Arduino `map` (long arithmetic; C integer division truncates toward zero,
-- as does `Int.div`)
def map (x in_min in_max out_min out_max : Int) : Int :=
  Int.tdiv ((x - in_min) * (out_max - out_min)) (in_max - in_min) + out_min

/-- `is_pressed`: strict comparisons on all four edges. -/
def is_pressed (x1 y1 x2 y2 px py : Int) : Bool :=
  (px > x1 && px < x2) && (py > y1 && py < y2)

/-- The hit condition the loop tests for button `b`:
`is_pressed(b.button_x - BUTTON_R, b.button_y - BUTTON_R,
b.button_x + BUTTON_R, b.button_y + BUTTON_R, p.x, p.y)`. -/
def buttonPressed (px py : Int) (b : button_info) : Bool :=
  is_pressed ((b.button_x : Int) - (BUTTON_R : Int)) ((b.button_y : Int) - (BUTTON_R : Int))
    ((b.button_x : Int) + (BUTTON_R : Int)) ((b.button_y : Int) + (BUTTON_R : Int)) px py

/-- x-coordinate of a button label in `show_menu`/the press flash:
`button_x - strlen(name) * size * 6 / 2 + 1`. -/
def labelX (b : button_info) : Int :=
  (b.button_x : Int) - (b.button_name.length * b.button_name_size * 6 / 2 : Nat) + 1

/-- y-coordinate of a button label: `button_y - size * 8 / 2 + 1`. -/
def labelY (b : button_info) : Int :=
  (b.button_y : Int) - (b.button_name_size * 8 / 2 : Nat) + 1

/-- The press-feedback flash: fill the button disk `DARKGREY`, redraw the
label in `WHITE`, `delay(100)`, then restore the original colours. -/
def flashEvents (b : button_info) : List Event :=
  [Event.fillCircle b.button_x b.button_y (BUTTON_R : Int) DARKGREY,
   Event.text b.button_name (labelX b) (labelY b) b.button_name_size WHITE BLACK true,
   Event.delayMs 100,
   Event.fillCircle b.button_x b.button_y (BUTTON_R : Int) b.button_colour,
   Event.text b.button_name (labelX b) (labelY b) b.button_name_size b.button_name_colour BLACK true]

/-- The dispatch on the button index `i` inside the loop body (the code after
the press flash).  `uint16_t` arithmetic on `text_x` is modelled with
`% 65536`; `n` is guarded (`n < 13` before `n++`, `n > 0` before `n--`) so
its updates are exact. -/
def buttonAction (i : Nat) (b : button_info) (s : State) : State × List Event :=
  if i < 12 then -- digits 0-9, #, *
    if s.n < 13 then
      (⟨(s.text_x + (text_x_add - 1)) % 65536, s.n + 1⟩,
       [Event.text b.button_name (s.text_x : Int) (text_y : Int) b.button_name_size GREENYELLOW BLACK true])
    else (s, [])
  else if i = 12 then -- end call
    (s, [Event.fillRect 0 33 ((displayWidth : Int) - 1) 42 BLUE,
         Event.text "Calling ended" CENTER 33 1 OLIVE BLACK true])
  else if i = 13 then -- call
    (s, [Event.fillRect 0 33 ((displayWidth : Int) - 1) 42 BLUE,
         Event.text "Calling..." CENTER 33 1 OLIVE BLACK true,
         Event.modem "ATD+916374354166;",
         Event.relay,
         Event.delayMs 20000,
         Event.modem "ATH",
         Event.relay])
  else if i = 14 then -- delete
    if 0 < s.n then
      let tx := (s.text_x + 65536 - (text_x_add - 1)) % 65536
      (⟨tx, s.n - 1⟩,
       [Event.fillRect (tx : Int) (text_y : Int) ((tx : Int) + (text_x_add : Int) - 1)
          ((text_y : Int) + (text_y_add : Int) - 2) BLUE])
    else (s, [])
  else (s, [])

/-- One iteration of the button `for` loop at index `i`: if the bounding
square strictly contains the mapped point, flash the button and dispatch. -/
def processButton (s : State) (px py : Int) (i : Nat) : State × List Event :=
  if buttonPressed px py (nthButton i) then
    let r := buttonAction i (nthButton i) s
    (r.1, flashEvents (nthButton i) ++ r.2)
  else (s, [])

/-- One fold step of the button `for` loop: thread the state and append the
emitted events. -/
def procStep (px py : Int) (acc : State × List Event) (i : Nat) : State × List Event :=
  let r := processButton acc.1 px py i
  (r.1, acc.2 ++ r.2)

/-- The whole button `for` loop (`i` from `0` to `14`; the loop has no
`break`, so every matching button is processed in layout order). -/
def processAll (s : State) (px py : Int) : State × List Event :=
  (List.range phone_button.length).foldl (procStep px py) (s, [])

/-- One iteration of `loop()`: read a touch sample; if its pressure is
strictly inside the thresholds, map the coordinates to display space and run
the button loop; otherwise do nothing further. -/
def loopStep (s : State) (p : TSPoint) : State × List Event :=
  if p.z > MINPRESSURE ∧ p.z < MAXPRESSURE then
    let px := map p.x TS_MINX TS_MAXX 0 (displayWidth : Int)
    let py := map p.y TS_MINY TS_MAXY 0 (displayHeight : Int)
    let r := processAll s px py
    (r.1, Event.sample p :: r.2)
  else
    (s, [Event.sample p])

/-- One fold step over a sample sequence: run an iteration and append its
trace. -/
def runStep (acc : State × List Event) (p : TSPoint) : State × List Event :=
  let r := loopStep acc.1 p
  (r.1, acc.2 ++ r.2)

/-- Any finite sequence of loop iterations, accumulating the event trace. -/
def run (s : State) (ps : List TSPoint) : State × List Event :=
  ps.foldl runStep (s, [])

/-- The buttons the hit test selects for a mapped point, in layout order:
exactly the indices whose branch the button loop executes. -/
def hitIndices (px py : Int) : List Nat :=
  (List.range phone_button.length).filter (fun i => buttonPressed px py (nthButton i))

/-- The modem command lines contained in a trace, in order. -/
def modemLines (evs : List Event) : List String :=
  evs.filterMap (fun e => match e with | Event.modem line => some line | _ => none)

/-- Does a character list match `\d*;` (zero or more ASCII digits then a
semicolon, nothing after)? -/
def tailSemi : List Char → Bool
  | [] => false
  | [c] => c == ';'
  | c :: rest => c.isDigit && tailSemi rest

/-- Does a character list match `\d+;` (one or more ASCII digits then a
semicolon, nothing after)? -/
def digitsSemi : List Char → Bool
  | c :: rest => c.isDigit && tailSemi rest
  | [] => false

/-- Does a command line match the dial-command pattern `ATD\+?\d+;`? -/
def matchesATD (line : String) : Bool :=
  match line.toList with
  | 'A' :: 'T' :: 'D' :: '+' :: rest => digitsSemi rest
  | 'A' :: 'T' :: 'D' :: rest => digitsSemi rest
  | _ => false

/-! ## Helper lemmas -/

lemma length_phone_button : phone_button.length = 15 := rfl

lemma text_x_add_eq : text_x_add = 18 := rfl

lemma text_y_add_eq : text_y_add = 24 := rfl

/-- Unfolding of the hit condition into the four strict inequalities. -/
lemma buttonPressed_iff (px py : Int) (b : button_info) :
    buttonPressed px py b = true ↔
      ((b.button_x : Int) - 25 < px ∧ px < (b.button_x : Int) + 25) ∧
      ((b.button_y : Int) - 25 < py ∧ py < (b.button_y : Int) + 25) := by
  simp [buttonPressed, is_pressed, BUTTON_R, and_assoc]

/-- Any two distinct button centers are at least 50 apart (one bounding
square side) in x or in y: the 15 bounding squares are pairwise disjoint,
closures included. -/
lemma buttons_separated :
    ∀ i, i < 15 → ∀ j, j < 15 → i ≠ j →
      (nthButton i).button_x + 50 ≤ (nthButton j).button_x ∨
      (nthButton j).button_x + 50 ≤ (nthButton i).button_x ∨
      (nthButton i).button_y + 50 ≤ (nthButton j).button_y ∨
      (nthButton j).button_y + 50 ≤ (nthButton i).button_y := by
  decide

/-- No mapped point is strictly inside two distinct bounding squares. -/
lemma no_two_hits (i j : Nat) (px py : Int) (hi : i < 15) (hj : j < 15)
    (hne : i ≠ j) (hp : buttonPressed px py (nthButton i) = true) :
    buttonPressed px py (nthButton j) = false := by
  by_contra h
  rw [Bool.not_eq_false, buttonPressed_iff] at h
  rw [buttonPressed_iff] at hp
  rcases buttons_separated i hi j hj hne with hs | hs | hs | hs <;> omega

/-- A fold step at an index whose button is not hit changes nothing. -/
lemma procStep_no_hit (px py : Int) (acc : State × List Event) (i : Nat)
    (h : buttonPressed px py (nthButton i) = false) :
    procStep px py acc i = acc := by
  simp [procStep, processButton, h]

/-- Folding over indices none of which is hit changes nothing. -/
lemma foldl_procStep_no_hit (px py : Int) (l : List Nat)
    (h : ∀ i ∈ l, buttonPressed px py (nthButton i) = false) :
    ∀ acc : State × List Event, l.foldl (procStep px py) acc = acc := by
  induction l with
  | nil => intro acc; rfl
  | cons a l ih =>
      intro acc
      rw [List.foldl_cons, procStep_no_hit px py acc a (h a (List.mem_cons_self a l))]
      exact ih (fun i hi => h i (List.mem_cons_of_mem a hi)) acc

/-- Folding over `range n` when exactly index `i < n` is hit is the single
step at `i`. -/
lemma foldl_range_single (px py : Int) (i : Nat) :
    ∀ n, i < n → (∀ j, j < n → j ≠ i → buttonPressed px py (nthButton j) = false) →
      ∀ acc : State × List Event,
        (List.range n).foldl (procStep px py) acc = procStep px py acc i := by
  intro n
  induction n with
  | zero => omega
  | succ m ih =>
      intro hi ho acc
      rw [List.range_succ, List.foldl_append]
      by_cases hcase : i = m
      · subst hcase
        rw [foldl_procStep_no_hit px py (List.range i)
          (fun j hj => ho j (by simp at hj; omega) (by simp at hj; omega))]
        rfl
      · have him : i < m := by omega
        rw [ih him (fun j hj hne => ho j (by omega) hne)]
        simp only [List.foldl_cons, List.foldl_nil]
        rw [procStep_no_hit px py _ m (ho m (by omega) (fun e => hcase e.symm))]

/-- When exactly one button is hit, the button loop flashes that button and
runs its action, nothing else. -/
lemma processAll_single_hit (s : State) (px py : Int) (i : Nat) (hi : i < 15)
    (hp : buttonPressed px py (nthButton i) = true)
    (ho : ∀ j, j < 15 → j ≠ i → buttonPressed px py (nthButton j) = false) :
    processAll s px py =
      ((buttonAction i (nthButton i) s).1,
        flashEvents (nthButton i) ++ (buttonAction i (nthButton i) s).2) := by
  unfold processAll
  rw [length_phone_button, foldl_range_single px py i 15 hi ho (s, [])]
  simp [procStep, processButton, hp]

/-- When no button is hit, the button loop changes nothing and emits
nothing. -/
lemma processAll_no_hit (s : State) (px py : Int)
    (h : ∀ j, j < 15 → buttonPressed px py (nthButton j) = false) :
    processAll s px py = (s, []) := by
  unfold processAll
  rw [length_phone_button,
    foldl_procStep_no_hit px py (List.range 15) (fun i hi => h i (by simpa using hi))]

/-- Filtering `range n` when every index fails the predicate gives `[]`. -/
lemma filter_range_nil (f : Nat → Bool) :
    ∀ n, (∀ j, j < n → f j = false) → (List.range n).filter f = [] := by
  intro n
  induction n with
  | zero => intro _; rfl
  | succ m ih =>
      intro h
      rw [List.range_succ, List.filter_append, ih (fun j hj => h j (by omega))]
      simp [h m (by omega)]

/-- Filtering `range n` when exactly index `i < n` passes gives `[i]`. -/
lemma filter_range_single (f : Nat → Bool) (i : Nat) :
    ∀ n, i < n → f i = true → (∀ j, j < n → j ≠ i → f j = false) →
      (List.range n).filter f = [i] := by
  intro n
  induction n with
  | zero => omega
  | succ m ih =>
      intro hi hf ho
      rw [List.range_succ, List.filter_append]
      by_cases hcase : i = m
      · subst hcase
        rw [filter_range_nil f i (fun j hj => ho j (by omega) (by omega))]
        simp [hf]
      · rw [ih (by omega) hf (fun j hj hne => ho j (by omega) hne)]
        simp [ho m (by omega) (fun e => hcase e.symm)]

/-! ## The dial-state invariant: `text_x = 10 + 17 * n` and `n ≤ 13` -/

/-- Invariant of the two mutable globals, established at startup and
preserved by every loop iteration. -/
def Inv (s : State) : Prop := s.text_x = 10 + 17 * s.n ∧ s.n ≤ 13

lemma initState_inv : Inv initState := by constructor <;> decide

lemma buttonAction_inv (i : Nat) (b : button_info) (s : State) (h : Inv s) :
    Inv (buttonAction i b s).1 := by
  obtain ⟨h1, h2⟩ := h
  unfold buttonAction Inv
  split_ifs with g1 g2 g3 g4 g5 g6 <;> simp [text_x_add_eq] <;> omega

lemma processButton_inv (s : State) (px py : Int) (i : Nat) (h : Inv s) :
    Inv (processButton s px py i).1 := by
  unfold processButton
  split_ifs with g
  · exact buttonAction_inv i (nthButton i) s h
  · exact h

lemma procStep_inv (px py : Int) (acc : State × List Event) (i : Nat)
    (h : Inv acc.1) : Inv (procStep px py acc i).1 :=
  processButton_inv acc.1 px py i h

lemma foldl_procStep_inv (px py : Int) (l : List Nat) :
    ∀ acc : State × List Event, Inv acc.1 →
      Inv ((l.foldl (procStep px py) acc)).1 := by
  induction l with
  | nil => intro acc h; exact h
  | cons a l ih =>
      intro acc h
      rw [List.foldl_cons]
      exact ih _ (procStep_inv px py acc a h)

lemma processAll_inv (s : State) (px py : Int) (h : Inv s) :
    Inv (processAll s px py).1 :=
  foldl_procStep_inv px py (List.range phone_button.length) (s, []) h

/-- Unfolded form of one loop iteration. -/
lemma loopStep_eq (s : State) (p : TSPoint) :
    loopStep s p =
      if p.z > MINPRESSURE ∧ p.z < MAXPRESSURE then
        ((processAll s (map p.x TS_MINX TS_MAXX 0 (displayWidth : Int))
            (map p.y TS_MINY TS_MAXY 0 (displayHeight : Int))).1,
          Event.sample p ::
            (processAll s (map p.x TS_MINX TS_MAXX 0 (displayWidth : Int))
              (map p.y TS_MINY TS_MAXY 0 (displayHeight : Int))).2)
      else (s, [Event.sample p]) := rfl

/-- State after one loop iteration. -/
lemma loopStep_fst (s : State) (p : TSPoint) :
    (loopStep s p).1 =
      if p.z > MINPRESSURE ∧ p.z < MAXPRESSURE then
        (processAll s (map p.x TS_MINX TS_MAXX 0 (displayWidth : Int))
          (map p.y TS_MINY TS_MAXY 0 (displayHeight : Int))).1
      else s := by
  rw [loopStep_eq]
  split_ifs <;> rfl

lemma loopStep_inv (s : State) (p : TSPoint) (h : Inv s) :
    Inv (loopStep s p).1 := by
  rw [loopStep_fst]
  split_ifs with g
  · exact processAll_inv s _ _ h
  · exact h

lemma foldl_runStep_inv (ps : List TSPoint) :
    ∀ acc : State × List Event, Inv acc.1 → Inv (ps.foldl runStep acc).1 := by
  induction ps with
  | nil => intro acc h; exact h
  | cons p ps ih =>
      intro acc h
      rw [List.foldl_cons]
      exact ih _ (loopStep_inv acc.1 p h)

lemma run_inv (ps : List TSPoint) : Inv (run initState ps).1 :=
  foldl_runStep_inv ps (initState, []) initState_inv

/-! ## The canonical dial states and the append / delete steps -/

/-- The dial state after `m` effective appends: `n = m`,
`text_x = 10 + 17 * m`. -/
def normState (m : Nat) : State := ⟨10 + 17 * m, m⟩

/-- State change of one digit/`#`/`*` press (the state update of the
`i < 12` branch; it does not depend on which of the 12 buttons is hit). -/
def appendStep (s : State) : State := (buttonAction 0 (nthButton 0) s).1

/-- State change of one `dele` press (the `i == 14` branch). -/
def deleteStep (s : State) : State := (buttonAction 14 (nthButton 14) s).1

lemma appendStep_norm (m : Nat) (hm : m ≤ 13) :
    appendStep (normState m) = normState (min (m + 1) 13) := by
  unfold appendStep buttonAction normState
  simp only [show (0 : Nat) < 12 by omega, if_true, text_x_add_eq]
  split_ifs with h <;> simp_all [State.mk.injEq] <;> omega

lemma deleteStep_norm (m : Nat) (hm : m ≤ 13) :
    deleteStep (normState m) = normState (m - 1) := by
  unfold deleteStep buttonAction normState
  norm_num [text_x_add_eq]
  split_ifs with h <;> simp_all [State.mk.injEq] <;> omega

lemma append_iter (N : Nat) :
    appendStep^[N] initState = normState (min N 13) := by
  induction N with
  | zero => rfl
  | succ k ih =>
      rw [Function.iterate_succ_apply', ih,
        appendStep_norm (min k 13) (min_le_right k 13)]
      congr 1
      omega

lemma delete_iter (k : Nat) :
    ∀ m, m ≤ 13 → deleteStep^[k] (normState m) = normState (m - k) := by
  induction k with
  | zero => intro m _; simp
  | succ j ih =>
      intro m hm
      have hs : m - j - 1 = m - (j + 1) := by omega
      rw [Function.iterate_succ_apply', ih m hm,
        deleteStep_norm (m - j) (by omega), hs]

/-! ## Trace purity: a loop iteration reads at most one touch sample -/

lemma no_sample_buttonAction (i : Nat) (b : button_info) (s : State)
    (q : TSPoint) : Event.sample q ∉ (buttonAction i b s).2 := by
  unfold buttonAction
  split_ifs <;> simp

lemma no_sample_processButton (s : State) (px py : Int) (i : Nat)
    (q : TSPoint) : Event.sample q ∉ (processButton s px py i).2 := by
  unfold processButton
  split_ifs with g
  · intro h
    rcases List.mem_append.mp h with h | h
    · simp [flashEvents] at h
    · exact no_sample_buttonAction i (nthButton i) s q h
  · simp

lemma no_sample_foldl (px py : Int) (l : List Nat) :
    ∀ acc : State × List Event, ∀ q : TSPoint,
      Event.sample q ∉ acc.2 →
      Event.sample q ∉ (l.foldl (procStep px py) acc).2 := by
  induction l with
  | nil => intro acc q h; exact h
  | cons a l ih =>
      intro acc q h
      rw [List.foldl_cons]
      refine ih _ q ?_
      intro hmem
      rcases List.mem_append.mp hmem with hmem | hmem
      · exact h hmem
      · exact no_sample_processButton acc.1 px py a q hmem

lemma no_sample_processAll (s : State) (px py : Int) (q : TSPoint) :
    Event.sample q ∉ (processAll s px py).2 :=
  no_sample_foldl px py (List.range phone_button.length) (s, []) q (by simp)

/-- Computed form of the `call` branch (`i == 13`). -/
lemma buttonAction_call (b : button_info) (s : State) :
    buttonAction 13 b s =
      (s, [Event.fillRect 0 33 239 42 BLUE,
           Event.text "Calling..." CENTER 33 1 OLIVE BLACK true,
           Event.modem "ATD+916374354166;",
           Event.relay,
           Event.delayMs 20000,
           Event.modem "ATH",
           Event.relay]) := rfl

/-- Computed form of the `end` branch (`i == 12`). -/
lemma buttonAction_end (b : button_info) (s : State) :
    buttonAction 12 b s =
      (s, [Event.fillRect 0 33 239 42 BLUE,
           Event.text "Calling ended" CENTER 33 1 OLIVE BLACK true]) := rfl

/-! ## Claims -/

/-- Claim C1: a touch sample whose pressure is `≤ MINPRESSURE` (10) or
`≥ MAXPRESSURE` (1000) is ignored entirely: the loop iteration performs no
button lookup, changes no state, and emits no display or modem events
beyond the sample read itself. -/
theorem claim_C1_pressure_filter (s : State) (p : TSPoint)
    (h : p.z ≤ MINPRESSURE ∨ MAXPRESSURE ≤ p.z) :
    loopStep s p = (s, [Event.sample p]) := by
  have hneg : ¬(p.z > MINPRESSURE ∧ p.z < MAXPRESSURE) := by
    rcases h with h | h
    · exact fun hc => absurd hc.1 (not_lt.mpr h)
    · exact fun hc => absurd hc.2 (not_lt.mpr h)
  rw [loopStep_eq, if_neg hneg]

/-- Witness for C1 at the idle sample `(0, 0, 0)`. -/
theorem claim_C1_pressure_filter_witness :
    loopStep initState ⟨0, 0, 0⟩ = (initState, [Event.sample ⟨0, 0, 0⟩]) :=
  claim_C1_pressure_filter initState ⟨0, 0, 0⟩ (Or.inl (by decide))

/-- Claim C2: a mapped point strictly inside exactly one button's bounding
square selects that button and only that button (the hit list is `[i]`, and
the button loop runs exactly that button's flash and action); moreover the
hit list never has two entries, so a tie between buttons in layout order
cannot arise at all for this layout. -/
theorem claim_C2_unique_hit_selection :
    (∀ px py : Int, ∀ i : Nat, i < 15 →
        buttonPressed px py (nthButton i) = true →
        (∀ j, j < 15 → j ≠ i → buttonPressed px py (nthButton j) = false) →
        hitIndices px py = [i] ∧
        ∀ s : State, processAll s px py =
          ((buttonAction i (nthButton i) s).1,
            flashEvents (nthButton i) ++ (buttonAction i (nthButton i) s).2)) ∧
    (∀ px py : Int, (hitIndices px py).length ≤ 1) := by
  constructor
  · intro px py i hi hp ho
    refine ⟨?_, fun s => processAll_single_hit s px py i hi hp ho⟩
    unfold hitIndices
    rw [length_phone_button]
    exact filter_range_single _ i 15 hi hp ho
  · intro px py
    by_cases hex : ∃ i, i < 15 ∧ buttonPressed px py (nthButton i) = true
    · obtain ⟨i, hi, hp⟩ := hex
      have ho : ∀ j, j < 15 → j ≠ i → buttonPressed px py (nthButton j) = false :=
        fun j hj hne => no_two_hits i j px py hi hj (fun e => hne e.symm) hp
      unfold hitIndices
      rw [length_phone_button, filter_range_single _ i 15 hi hp ho]
      simp
    · push_neg at hex
      have h : ∀ j, j < 15 → buttonPressed px py (nthButton j) = false := by
        intro j hj
        have hx := hex j hj
        revert hx
        cases buttonPressed px py (nthButton j) <;> simp
      unfold hitIndices
      rw [length_phone_button, filter_range_nil _ 15 h]
      simp

/-- Witness for C2 at the center of button 0 (the `"1"` key). -/
theorem claim_C2_unique_hit_selection_witness :
    hitIndices 44 69 = [0] ∧
    processAll initState 44 69 =
      ((buttonAction 0 (nthButton 0) initState).1,
        flashEvents (nthButton 0) ++ (buttonAction 0 (nthButton 0) initState).2) ∧
    (hitIndices 44 69).length ≤ 1 :=
  ⟨(claim_C2_unique_hit_selection.1 44 69 0 (by decide) (by decide) (by decide)).1,
   (claim_C2_unique_hit_selection.1 44 69 0 (by decide) (by decide) (by decide)).2 initState,
   claim_C2_unique_hit_selection.2 44 69⟩

/-- Claim C3: a mapped point lying exactly on the boundary of a button's
bounding square does not select that button: `is_pressed` is strict on all
four edges. -/
theorem claim_C3_boundary_open (px py : Int) (i : Nat) (hi : i < 15)
    (h : px = ((nthButton i).button_x : Int) - (BUTTON_R : Int) ∨
         px = ((nthButton i).button_x : Int) + (BUTTON_R : Int) ∨
         py = ((nthButton i).button_y : Int) - (BUTTON_R : Int) ∨
         py = ((nthButton i).button_y : Int) + (BUTTON_R : Int)) :
    i ∉ hitIndices px py := by
  intro hmem
  unfold hitIndices at hmem
  have hp : buttonPressed px py (nthButton i) = true := (List.mem_filter.mp hmem).2
  rw [buttonPressed_iff] at hp
  have hR : ((BUTTON_R : Nat) : Int) = 25 := rfl
  rw [hR] at h
  omega

/-- Witness for C3 on the left edge of button 0 (`px = 44 - 25`). -/
theorem claim_C3_boundary_open_witness : 0 ∉ hitIndices 19 69 :=
  claim_C3_boundary_open 19 69 0 (by decide) (Or.inl (by decide))

/-- Claim C4: under every sample sequence the dial-buffer count `n` stays
`≤ 13`; a digit/`#`/`*` press with the buffer at capacity is a no-op (state
and display untouched), and a delete press with the buffer empty is a
no-op. -/
theorem claim_C4_buffer_capacity :
    (∀ ps : List TSPoint, (run initState ps).1.n ≤ 13) ∧
    (∀ s : State, ∀ i : Nat, ∀ b : button_info,
        s.n = 13 → i < 12 → buttonAction i b s = (s, [])) ∧
    (∀ s : State, ∀ b : button_info, s.n = 0 →
        buttonAction 14 b s = (s, [])) := by
  refine ⟨fun ps => (run_inv ps).2, ?_, ?_⟩
  · intro s i b h13 hi
    unfold buttonAction
    rw [if_pos hi, if_neg (by omega)]
  · intro s b h0
    unfold buttonAction
    rw [if_neg (by decide), if_neg (by decide), if_neg (by decide), if_pos rfl,
      if_neg (by omega)]

/-- Witness for C4: empty run, a full buffer, an empty buffer. -/
theorem claim_C4_buffer_capacity_witness :
    (run initState [⟨0, 0, 0⟩]).1.n ≤ 13 ∧
    buttonAction 0 (nthButton 0) ⟨231, 13⟩ = (⟨231, 13⟩, []) ∧
    buttonAction 14 (nthButton 14) ⟨10, 0⟩ = (⟨10, 0⟩, []) :=
  ⟨claim_C4_buffer_capacity.1 [⟨0, 0, 0⟩],
   claim_C4_buffer_capacity.2.1 ⟨231, 13⟩ 0 (nthButton 0) rfl (by decide),
   claim_C4_buffer_capacity.2.2 ⟨10, 0⟩ (nthButton 14) rfl⟩

/-- Claim C5: appending `N` characters from the initial state and then
pressing delete `N` times restores the empty buffer and the exact initial
cursor, and each effective delete steps the cursor back by exactly one
glyph width (`text_x_add - 1 = 17`). -/
theorem claim_C5_round_trip :
    (∀ N : Nat, deleteStep^[N] (appendStep^[N] initState) = initState) ∧
    (∀ s : State, 0 < s.n → s.n ≤ 13 → s.text_x = 10 + 17 * s.n →
        (deleteStep s).text_x + (text_x_add - 1) = s.text_x) := by
  constructor
  · intro N
    rw [append_iter N, delete_iter N (min N 13) (min_le_right N 13)]
    have h0 : min N 13 - N = 0 := by omega
    rw [h0]
    rfl
  · intro s h1 h2 h3
    unfold deleteStep buttonAction
    rw [if_neg (by decide), if_neg (by decide), if_neg (by decide), if_pos rfl,
      if_pos h1]
    show (s.text_x + 65536 - (text_x_add - 1)) % 65536 + (text_x_add - 1) = s.text_x
    rw [text_x_add_eq]
    omega

/-- Witness for C5 with `N = 2` and the state after two appends. -/
theorem claim_C5_round_trip_witness :
    deleteStep^[2] (appendStep^[2] initState) = initState ∧
    (deleteStep ⟨44, 2⟩).text_x + (text_x_add - 1) = (44 : Nat) :=
  ⟨claim_C5_round_trip.1 2,
   claim_C5_round_trip.2 ⟨44, 2⟩ (by decide) (by decide) (by decide)⟩

/-- Claim C6: on a `call` button match the loop renders the `"Calling..."`
banner, then sends exactly the dial command `ATD+916374354166;` (matching
`ATD\+?\d+;`), relays, blocks for the 20-second hold, sends exactly one
`ATH`, and relays again — and no touch sample is read anywhere after the
single sample at the head of the iteration, in particular not between the
dial and hang-up commands. -/
theorem claim_C6_call_press :
    (∀ (s : State) (px py : Int),
        buttonPressed px py (nthButton 13) = true →
        processAll s px py =
          (s, flashEvents (nthButton 13) ++
            [Event.fillRect 0 33 239 42 BLUE,
             Event.text "Calling..." CENTER 33 1 OLIVE BLACK true,
             Event.modem "ATD+916374354166;",
             Event.relay,
             Event.delayMs 20000,
             Event.modem "ATH",
             Event.relay]) ∧
        modemLines (processAll s px py).2 = ["ATD+916374354166;", "ATH"]) ∧
    matchesATD "ATD+916374354166;" = true ∧
    (∀ (s : State) (p q : TSPoint),
        Event.sample q ∉ ((loopStep s p).2).tail) := by
  have key : ∀ (s : State) (px py : Int),
      buttonPressed px py (nthButton 13) = true →
      processAll s px py =
        (s, flashEvents (nthButton 13) ++
          [Event.fillRect 0 33 239 42 BLUE,
           Event.text "Calling..." CENTER 33 1 OLIVE BLACK true,
           Event.modem "ATD+916374354166;",
           Event.relay,
           Event.delayMs 20000,
           Event.modem "ATH",
           Event.relay]) := by
    intro s px py hp
    have ho : ∀ j, j < 15 → j ≠ 13 → buttonPressed px py (nthButton j) = false :=
      fun j hj hne => no_two_hits 13 j px py (by decide) hj (fun e => hne e.symm) hp
    rw [processAll_single_hit s px py 13 (by decide) hp ho,
      buttonAction_call (nthButton 13) s]
  refine ⟨fun s px py hp => ⟨key s px py hp, ?_⟩, rfl, ?_⟩
  · rw [key s px py hp]
    rfl
  · intro s p q
    rw [loopStep_eq]
    split_ifs with g
    · exact no_sample_processAll s _ _ q
    · simp

/-- Witness for C6 at the center of the `call` button, `(119, 289)`. -/
theorem claim_C6_call_press_witness :
    processAll initState 119 289 =
      (initState, flashEvents (nthButton 13) ++
        [Event.fillRect 0 33 239 42 BLUE,
         Event.text "Calling..." CENTER 33 1 OLIVE BLACK true,
         Event.modem "ATD+916374354166;",
         Event.relay,
         Event.delayMs 20000,
         Event.modem "ATH",
         Event.relay]) ∧
    modemLines (processAll initState 119 289).2 = ["ATD+916374354166;", "ATH"] ∧
    matchesATD "ATD+916374354166;" = true ∧
    Event.sample ⟨1, 2, 3⟩ ∉ ((loopStep initState ⟨500, 500, 500⟩).2).tail :=
  ⟨(claim_C6_call_press.1 initState 119 289 (by decide)).1,
   (claim_C6_call_press.1 initState 119 289 (by decide)).2,
   claim_C6_call_press.2.1,
   claim_C6_call_press.2.2 initState ⟨500, 500, 500⟩ ⟨1, 2, 3⟩⟩

/-- Claim C7: on an `end` button match the loop clears the banner region
and renders `"Calling ended"`; no modem command is sent and the dial state
(buffer count and cursor) is unchanged. -/
theorem claim_C7_end_press :
    ∀ (s : State) (px py : Int),
      buttonPressed px py (nthButton 12) = true →
      processAll s px py =
        (s, flashEvents (nthButton 12) ++
          [Event.fillRect 0 33 239 42 BLUE,
           Event.text "Calling ended" CENTER 33 1 OLIVE BLACK true]) ∧
      modemLines (processAll s px py).2 = [] := by
  intro s px py hp
  have ho : ∀ j, j < 15 → j ≠ 12 → buttonPressed px py (nthButton j) = false :=
    fun j hj hne => no_two_hits 12 j px py (by decide) hj (fun e => hne e.symm) hp
  have key := processAll_single_hit s px py 12 (by decide) hp ho
  rw [buttonAction_end (nthButton 12) s] at key
  constructor
  · rw [key]
  · rw [key]
    rfl

/-- Witness for C7 at the center of the `end` button, `(44, 289)`. -/
theorem claim_C7_end_press_witness :
    processAll initState 44 289 =
      (initState, flashEvents (nthButton 12) ++
        [Event.fillRect 0 33 239 42 BLUE,
         Event.text "Calling ended" CENTER 33 1 OLIVE BLACK true]) ∧
    modemLines (processAll initState 44 289).2 = [] :=
  claim_C7_end_press initState 44 289 (by decide)

/-- Claim C8: the dial destination is the fixed literal `+916374354166`,
identical on every `call` press and never read from the dial buffer: the
`call` action's event list is one and the same closed literal for every
state. -/
theorem claim_C8_fixed_number :
    (∀ s : State, buttonAction 13 (nthButton 13) s =
        (s, [Event.fillRect 0 33 239 42 BLUE,
             Event.text "Calling..." CENTER 33 1 OLIVE BLACK true,
             Event.modem "ATD+916374354166;",
             Event.relay,
             Event.delayMs 20000,
             Event.modem "ATH",
             Event.relay])) ∧
    (∀ s t : State, (buttonAction 13 (nthButton 13) s).2 =
        (buttonAction 13 (nthButton 13) t).2) :=
  ⟨fun _ => rfl, fun _ _ => rfl⟩

/-- Witness for C8 at two different dial-buffer states. -/
theorem claim_C8_fixed_number_witness :
    buttonAction 13 (nthButton 13) ⟨27, 1⟩ =
      (⟨27, 1⟩, [Event.fillRect 0 33 239 42 BLUE,
        Event.text "Calling..." CENTER 33 1 OLIVE BLACK true,
        Event.modem "ATD+916374354166;",
        Event.relay,
        Event.delayMs 20000,
        Event.modem "ATH",
        Event.relay]) ∧
    (buttonAction 13 (nthButton 13) ⟨27, 1⟩).2 =
      (buttonAction 13 (nthButton 13) ⟨10, 0⟩).2 :=
  ⟨claim_C8_fixed_number.1 ⟨27, 1⟩, claim_C8_fixed_number.2 ⟨27, 1⟩ ⟨10, 0⟩⟩

/-- Claim C9: at every loop-iteration boundary the cursor satisfies
`text_x = 10 + n * (text_x_add - 1)` with `text_x_add - 1 = 17`; in
particular it never moves left of the text origin `10`. -/
theorem claim_C9_cursor_invariant :
    ∀ ps : List TSPoint,
      (run initState ps).1.text_x =
        10 + (run initState ps).1.n * (text_x_add - 1) ∧
      10 ≤ (run initState ps).1.text_x ∧ text_x_add - 1 = 17 := by
  intro ps
  have h := run_inv ps
  refine ⟨?_, ?_, rfl⟩
  · rw [h.1, text_x_add_eq]
    omega
  · rw [h.1]
    omega

/-- Witness for C9 after one loop iteration. -/
theorem claim_C9_cursor_invariant_witness :
    (run initState [⟨500, 500, 500⟩]).1.text_x =
      10 + (run initState [⟨500, 500, 500⟩]).1.n * (text_x_add - 1) ∧
    10 ≤ (run initState [⟨500, 500, 500⟩]).1.text_x ∧ text_x_add - 1 = 17 :=
  claim_C9_cursor_invariant [⟨500, 500, 500⟩]

/-- Claim C10: the dial buffer's capacity is exactly 13 — the 13th digit
press still appends (`n` reaches 13) while the 14th and every later press
is a no-op — and a `call` press never changes the dial state (`n` and
`text_x`). -/
theorem claim_C10_capacity_and_call_frame :
    ((appendStep^[12] initState).n = 12 ∧ (appendStep^[13] initState).n = 13) ∧
    (∀ k : Nat, 13 ≤ k → appendStep^[k] initState = appendStep^[13] initState) ∧
    (∀ (s : State) (b : button_info), (buttonAction 13 b s).1 = s) := by
  refine ⟨⟨?_, ?_⟩, ?_, fun s b => rfl⟩
  · rw [append_iter 12]
    decide
  · rw [append_iter 13]
    decide
  · intro k hk
    rw [append_iter k, append_iter 13]
    congr 1
    omega

/-- Witness for C10: the 14th press is a no-op and `call` preserves a
concrete dial state. -/
theorem claim_C10_capacity_and_call_frame_witness :
    appendStep^[14] initState = appendStep^[13] initState ∧
    (buttonAction 13 (nthButton 13) ⟨44, 2⟩).1 = ⟨44, 2⟩ :=
  ⟨claim_C10_capacity_and_call_frame.2.1 14 (by decide),
   claim_C10_capacity_and_call_frame.2.2 ⟨44, 2⟩ (nthButton 13)⟩

end Phone
